import Mathlib

/-!
Verification of the gtags-mcp request/response bridge (src/lib/server.js).

The repository ships two variants in one file: an MCP stdio server class
(`GtagsMCPServer`) and a TCP line-protocol server (`parseArguments`,
`executeGlobalCommand`, `parseLocationOutput`, `processRequest`, the
`rl.on('line')` handler, `runGtagsUpdate`, `main`).  The definitions below
are shallow embeddings of those functions; external effects (the `global`
subprocess, `JSON.parse`, `fs.access`, `error.stack`) are passed in as
explicit oracle parameters.
-/

namespace GtagsMcp

/-! ## JavaScript string primitives used by the source -/

/-- Characters matched by the JavaScript regex class `\s` (and the set removed
by `String.prototype.trim()`): space, tab, LF, VT, FF, CR, NBSP, Ogham space,
the U+2000..U+200A range, LS, PS, NNBSP, MMSP, ideographic space, BOM. -/
def jsWs (c : Char) : Bool :=
  let n := c.toNat
  n == 32 || n == 9 || n == 10 || n == 11 || n == 12 || n == 13 ||
  n == 0xa0 || n == 0x1680 || (0x2000 ≤ n && n ≤ 0x200a) ||
  n == 0x2028 || n == 0x2029 || n == 0x202f || n == 0x205f ||
  n == 0x3000 || n == 0xfeff

/-- Characters matched by the JavaScript regex class `\d`. -/
def isDigitChar (c : Char) : Bool :=
  48 ≤ c.toNat && c.toNat ≤ 57

/-- JavaScript line terminators: the characters NOT matched by `.`
in a regex without the `s` flag. -/
def isLineTerm (c : Char) : Bool :=
  let n := c.toNat
  n == 10 || n == 13 || n == 0x2028 || n == 0x2029

/-- `String.prototype.trim()` on a character list: drop `jsWs` characters
from both ends. -/
def jsTrimChars (cs : List Char) : List Char :=
  ((cs.dropWhile jsWs).reverse.dropWhile jsWs).reverse

/-- `String.prototype.trim()`. -/
def jsTrim (s : String) : String :=
  String.mk (jsTrimChars s.data)

/-- `String.prototype.split('\n')` on a character list (JavaScript semantics:
splitting the empty string yields `[""]`, a trailing separator yields a
trailing empty piece). -/
def splitNlAux : List Char → List Char → List String
  | [], acc => [String.mk acc.reverse]
  | c :: cs, acc =>
    if c = '\n' then String.mk acc.reverse :: splitNlAux cs [] else splitNlAux cs (c :: acc)

/-- `String.prototype.split('\n')`. -/
def splitOnNl (s : String) : List String :=
  splitNlAux s.data []

/-- `String.prototype.includes(needle)`: substring containment. -/
def includesStr (hay needle : String) : Bool :=
  decide (needle.data <:+: hay.data)

/-! ## Output Parser (`parseLocationOutput`, src/lib/server.js lines 756-763)

```js
function parseLocationOutput(output) {
    if (!output) return [];
    return output.trim().split('\n').map(line => {
        const match = line.match(/^(\S+)\s+(\d+)\s+([^\s]+)\s+(.*)$/);
        if (!match) return null;
        return { symbol: match[1], line: parseInt(match[2], 10),
                 file: match[3], code: match[4].trim() };
    }).filter(Boolean);
}
```
-/

/-- A Location Record: one parsed line of `global -x` output. -/
structure LocRecord where
  symbol : String
  line : Nat
  file : String
  code : String
deriving DecidableEq, Repr

/-- `parseInt(digits, 10)` on a list of decimal digits. -/
def decimalNat (cs : List Char) : Nat :=
  cs.foldl (fun n c => 10 * n + (c.toNat - 48)) 0

/-- The match of `/^(\S+)\s+(\d+)\s+([^\s]+)\s+(.*)$/` against one line,
and the record built from it.  The regex is anchored and every quantifier
boundary steps between disjoint character classes, so the backtracking
search is equivalent to maximal munch; `(.*)$` succeeds exactly when the
remainder contains no line terminator.  `code` is `match[4].trim()`. -/
def matchLocLine (cs : List Char) : Option LocRecord :=
  let sym := cs.takeWhile (fun c => !jsWs c)
  let r1 := cs.dropWhile (fun c => !jsWs c)
  if sym.isEmpty then none else
  let ws1 := r1.takeWhile jsWs
  let r2 := r1.dropWhile jsWs
  if ws1.isEmpty then none else
  let num := r2.takeWhile isDigitChar
  let r3 := r2.dropWhile isDigitChar
  if num.isEmpty then none else
  let ws2 := r3.takeWhile jsWs
  let r4 := r3.dropWhile jsWs
  if ws2.isEmpty then none else
  let file := r4.takeWhile (fun c => !jsWs c)
  let r5 := r4.dropWhile (fun c => !jsWs c)
  if file.isEmpty then none else
  let ws3 := r5.takeWhile jsWs
  let rest := r5.dropWhile jsWs
  if ws3.isEmpty then none else
  if rest.any isLineTerm then none else
  some { symbol := String.mk sym
         line := decimalNat num
         file := String.mk file
         code := String.mk (jsTrimChars rest) }

/-- One `map` step of `parseLocationOutput`. -/
def parseLocationLine (line : String) : Option LocRecord :=
  matchLocLine line.data

/-- `parseLocationOutput` (TCP variant).  `!output` is true exactly for the
empty string; `.filter(Boolean)` drops the `null` entries. -/
def parseLocationOutput (output : String) : List LocRecord :=
  if output = "" then []
  else ((splitOnNl (jsTrim output)).map parseLocationLine).reduceOption

/-! ## External Index Tool Adapter (`executeGlobalCommand`, lines 746-754)

```js
function executeGlobalCommand(args) {
    return new Promise((resolve, reject) => {
        const command = `global ${args.join(' ')}`;
        exec(command, { cwd: PROJECT_PATH }, (error, stdout, stderr) => {
            if (error && !stderr.includes('not found')) return reject({ error, stderr });
            resolve(stdout);
        });
    });
}
```

The subprocess is an oracle `tool : String → ExecResult` from the command
string to the callback's `(error, stdout, stderr)` triple. -/

/-- Outcome of one `exec` call: `error` is whether the `error` argument of
the callback was non-null (non-zero exit or spawn failure), plus the
captured output streams. -/
structure ExecResult where
  error : Bool
  stdout : String
  stderr : String

/-- A dispatcher failure, as the `rl.on('line')` catch handler sees it:
either the plain `{ error, stderr }` object `executeGlobalCommand` rejects
with (whose `.message` and `.stack` are both `undefined`), or a thrown
`Error` with a message (whose `.stack` is the runtime stack text). -/
inductive ProcError where
  | rejected (stderr : String)
  | thrown (msg : String)
deriving DecidableEq, Repr

/-- `executeGlobalCommand`: builds `global <args joined by spaces>`, runs it,
rejects on a genuine error, and resolves captured stdout when the command
succeeded or failed only with a `not found` marker on stderr. -/
def executeGlobalCommand (tool : String → ExecResult) (args : List String) :
    Except ProcError String :=
  let r := tool ("global " ++ String.intercalate " " args)
  if r.error && !(includesStr r.stderr "not found") then .error (.rejected r.stderr)
  else .ok r.stdout

/-! ## Command Dispatcher (`processRequest`, lines 767-779)

```js
async function processRequest(request) {
    const { command, params } = request;
    switch (command) {
        case 'get_definition':
            return await executeGlobalCommand(['-x', params.symbol]).then(parseLocationOutput);
        case 'get_references':
            return await executeGlobalCommand(['-xr', params.symbol]).then(parseLocationOutput);
        case 'list_symbols_with_prefix':
            return await executeGlobalCommand(['-c', params.prefix]).then(out => out.trim().split('\n').filter(Boolean));
        default:
            throw new Error(`Unknown command: ${command}`);
    }
}
```
-/

/-- A successful dispatcher payload: Location Records or a flat list of
symbol names. -/
inductive Payload where
  | locs (xs : List LocRecord)
  | syms (xs : List String)
deriving DecidableEq, Repr

/-- The payload is the JSON empty list `[]`. -/
def Payload.isEmptyList : Payload → Prop
  | .locs xs => xs = []
  | .syms xs => xs = []

/-- A request parameter as `Array.prototype.join(' ')` renders it into the
command string: a missing (`undefined`) parameter becomes the empty string. -/
def jsArg : Option String → String
  | some s => s
  | none => ""

/-- The `out => out.trim().split('\n').filter(Boolean)` continuation of the
`list_symbols_with_prefix` case: non-empty lines of the trimmed output, in
tool output order, without deduplication. -/
def listSymbolLines (out : String) : List String :=
  (splitOnNl (jsTrim out)).filter (fun l => l != "")

/-- `processRequest`: the TCP variant's Command Dispatcher.  `params` is the
request's params object read as a string-valued map. -/
def processRequest (tool : String → ExecResult) (command : String)
    (params : String → Option String) : Except ProcError Payload :=
  if command = "get_definition" then
    (executeGlobalCommand tool ["-x", jsArg (params "symbol")]).map
      (fun out => .locs (parseLocationOutput out))
  else if command = "get_references" then
    (executeGlobalCommand tool ["-xr", jsArg (params "symbol")]).map
      (fun out => .locs (parseLocationOutput out))
  else if command = "list_symbols_with_prefix" then
    (executeGlobalCommand tool ["-c", jsArg (params "prefix")]).map
      (fun out => .syms (listSymbolLines out))
  else .error (.thrown ("Unknown command: " ++ command))

/-! ## Protocol Session (`rl.on('line')` handler, lines 792-811)

```js
rl.on('line', async (line) => {
    let request;
    try {
        request = JSON.parse(line);
        if (!request.id || !request.command) {
            throw new Error("Request must include 'id' and 'command' fields.");
        }
    } catch (error) {
        clientSocket.write(JSON.stringify({ id: null, status: 'error',
            error: { message: 'Invalid JSON request.', details: error.message } }) + '\n');
        return;
    }
    try {
        const payload = await processRequest(request);
        clientSocket.write(JSON.stringify({ id: request.id, status: 'success', payload: payload }) + '\n');
    } catch (error) {
        clientSocket.write(JSON.stringify({ id: request.id, status: 'error',
            error: { message: error.message, details: error.stack } }) + '\n');
    }
});
```

`JSON.parse` is not re-implemented; a line is embedded as its decode
outcome: either a parse failure carrying the `SyntaxError` message, or the
decoded request object.  String-valued `id`/`command` cover the claims;
JavaScript truthiness of a string is non-emptiness.  `error.stack` for a
thrown `Error` is supplied by the runtime, embedded as an oracle
`stk : String → String` from the message to the stack text.  A field that
is `undefined` is dropped by `JSON.stringify`, embedded as `none`. -/

/-- A decoded request object as the handler destructures it. -/
structure RawRequest where
  id : Option String
  command : Option String
  params : String → Option String

/-- One input line, after the `JSON.parse` attempt. -/
inductive LineInput where
  | parseFail (errMsg : String)
  | parsed (req : RawRequest)

/-- The `error` object of an error response; `none` fields are `undefined`
and absent from the serialized JSON. -/
structure ErrObj where
  message : Option String
  details : Option String
deriving DecidableEq, Repr

/-- One serialized response line. -/
structure Response where
  id : Option String
  status : String
  payload : Option Payload
  error : Option ErrObj
deriving DecidableEq, Repr

/-- JavaScript truthiness of an optional string field. -/
def truthyOpt : Option String → Bool
  | none => false
  | some s => s != ""

/-- How the catch handler turns a dispatcher failure into the response's
`error` object: a plain rejected object has `undefined` message and stack;
a thrown `Error` carries its message and runtime stack text. -/
def errObjOf (stk : String → String) : ProcError → ErrObj
  | .rejected _ => { message := none, details := none }
  | .thrown m => { message := some m, details := some (stk m) }

/-- The `rl.on('line')` handler: the list of response lines it writes for
one input line (each code path writes exactly one). -/
def handleLine (tool : String → ExecResult) (stk : String → String) :
    LineInput → List Response
  | .parseFail emsg =>
    [{ id := none, status := "error", payload := none,
       error := some { message := some "Invalid JSON request.", details := some emsg } }]
  | .parsed req =>
    if truthyOpt req.id && truthyOpt req.command then
      match processRequest tool (req.command.getD "") req.params with
      | .ok p => [{ id := req.id, status := "success", payload := some p, error := none }]
      | .error e =>
        [{ id := req.id, status := "error", payload := none, error := some (errObjOf stk e) }]
    else
      [{ id := none, status := "error", payload := none,
         error := some { message := some "Invalid JSON request.",
                         details := some "Request must include 'id' and 'command' fields." } }]

/-- A session: the handler runs once per input line, and the written
response lines are concatenated in order. -/
def session (tool : String → ExecResult) (stk : String → String)
    (inputs : List LineInput) : List Response :=
  (inputs.map (handleLine tool stk)).flatten

/-- A line is malformed when it fails to decode or a required field is
missing (or falsy). -/
def malformedLine : LineInput → Bool
  | .parseFail _ => true
  | .parsed req => !(truthyOpt req.id && truthyOpt req.command)

/-! ## Refresh Scheduler

Stdio variant (`startPeriodicUpdate`, lines 646-659):

```js
startPeriodicUpdate() {
    setInterval(async () => {
        if (!this.isUpdating) {
            this.isUpdating = true;
            try {
                await this.runCommand('global', ['-u'], { cwd: this.projectDir });
            } catch (error) {
                // Silently handle update errors
            } finally {
                this.isUpdating = false;
            }
        }
    }, this.updateInterval * 1000);
}
```

TCP variant (`main`, lines 825-831): `setInterval(runGtagsUpdate,
updateIntervalSeconds * 1000)` where `runGtagsUpdate` runs `gtags -i` with
no in-progress flag of any kind.

Both are embedded as transition systems over the events the runtime
delivers: a timer `tick`, and the `settle` of a running refresh (with the
flag telling whether the refresh command succeeded, which the `finally`
path ignores).  `running` counts refresh subprocesses currently in flight
— the instrumentation the spec's overlap test asks for. -/

/-- A scheduler event: a timer tick, or a running refresh settling
(succeeding or failing). -/
inductive RefreshEvent where
  | tick
  | settle (ok : Bool)
deriving DecidableEq, Repr

/-- State of the stdio variant's scheduler: the `isUpdating` flag plus the
in-flight refresh count. -/
structure SchedState where
  isUpdating : Bool
  running : Nat
deriving DecidableEq, Repr

/-- Initial state: flag cleared, nothing running. -/
def schedInit : SchedState := { isUpdating := false, running := 0 }

/-- One step of `startPeriodicUpdate`'s callback: a tick is a no-op while
`isUpdating`, otherwise it sets the flag and starts a refresh; a settle
runs the `finally` path, clearing the flag, whatever the outcome was. -/
def schedStep (s : SchedState) : RefreshEvent → SchedState
  | .tick => if s.isUpdating then s else { isUpdating := true, running := s.running + 1 }
  | .settle _ => { isUpdating := false, running := s.running - 1 }

/-- The stdio scheduler state after a list of events. -/
def schedRun (evs : List RefreshEvent) : SchedState :=
  evs.foldl schedStep schedInit

/-- One step of the TCP variant's scheduler: `setInterval(runGtagsUpdate)`
starts a refresh on every tick, unconditionally. -/
def tcpSchedStep (n : Nat) : RefreshEvent → Nat
  | .tick => n + 1
  | .settle _ => n - 1

/-- In-flight refresh count of the TCP variant's scheduler after a list of
events. -/
def tcpSchedRun (evs : List RefreshEvent) : Nat :=
  evs.foldl tcpSchedStep 0

/-! ## Index-creation bootstrap (stdio variant)

`ensureGtagsDatabase` (lines 402-410) and `initialize` (lines 78-97):

```js
async ensureGtagsDatabase() {
    const gtagsPath = path.join(this.projectDir, 'GTAGS');
    try {
        await fs.access(gtagsPath);
    } catch (error) {
        // GTAGS database doesn't exist, create it
        await this.runCommand('gtags', [], { cwd: this.projectDir });
    }
}
```

`initialize()` awaits `ensureGtagsDatabase()` before returning its result,
and `handleMessage` dispatches `initialize` / `tools/call` requests.  The
embedding records the trace of index operations one message's handler
performs; within a single handler the awaits run these in order, but
`setupStdioHandlers` (line 23) fires `handleMessage` without awaiting it,
so handlers of different messages are not serialized with each other and
`tools/call` is not gated on the bootstrap having run.  The TCP variant's
startup (`main`, lines 822-831, via `runGtagsUpdate`, lines 736-744) runs
an unconditional incremental `gtags -i` after `listen`, with no existence
check and no full build. -/

/-- An operation touching the index: the `fs.access(GTAGS)` existence
check, the full `gtags` build (no `-i`), the incremental `gtags -i`
update, or a `global` query with the given arguments. -/
inductive IndexOp where
  | checkAccess
  | buildFull
  | updateIncr
  | query (args : List String)
deriving DecidableEq, Repr

/-- `ensureGtagsDatabase`: check for `GTAGS` in the project root; run the
full build exactly when the check fails. -/
def ensureGtagsDatabase (gtagsExists : Bool) : List IndexOp :=
  IndexOp.checkAccess :: (if gtagsExists then [] else [IndexOp.buildFull])

/-- An MCP message, by the `handleMessage` methods that touch the index. -/
inductive McpMsg where
  | init
  | toolsList
  | promptsList
  | promptsGet (name : String)
  | toolsCall (name : String) (arg : String)
deriving DecidableEq, Repr

/-- The `global` arguments `callTool` dispatches each tool name to
(`getDefinition` uses `-d`, `getReferences` `-r`, `listSymbolsWithPrefix`
`-c`, `searchPattern` `-g`); `none` for an unknown tool. -/
def classToolArgs : String → String → Option (List String)
  | "get_definition", s => some ["-d", s]
  | "get_references", s => some ["-r", s]
  | "list_symbols_with_prefix", p => some ["-c", p]
  | "search_pattern", p => some ["-g", p]
  | _, _ => none

/-- Index operations `handleMessage` performs for one message, given
whether `GTAGS` exists in the project root. -/
def handleMessageOps (gtagsExists : Bool) : McpMsg → List IndexOp
  | .init => ensureGtagsDatabase gtagsExists
  | .toolsCall name arg =>
    match classToolArgs name arg with
    | some args => [IndexOp.query args]
    | none => []
  | _ => []

/-- Index operations of the TCP variant's startup: `main` runs
`runGtagsUpdate` — an unconditional incremental `gtags -i` — once after the
server starts listening; it never checks for an existing index and never
runs the full build. -/
def tcpStartupOps : List IndexOp :=
  [IndexOp.updateIncr]

/-! ## Concrete oracle instances used by witnesses and counterexamples -/

/-- A tool oracle whose every invocation succeeds with empty output. -/
def toolOk : String → ExecResult := fun _ => { error := false, stdout := "", stderr := "" }

/-- A tool oracle whose every invocation exits non-zero with the `global`
zero-result marker on stderr and nothing on stdout. -/
def toolNotFound : String → ExecResult :=
  fun _ => { error := true, stdout := "", stderr := "global: symbol not found." }

/-- A fixed stack-text oracle in the V8 shape. -/
def stk0 : String → String := fun m => "Error: " ++ m ++ "\n    at processRequest"

/-- An empty params object. -/
def noParams : String → Option String := fun _ => none

/-- A params object carrying only `symbol`. -/
def paramsSymbol (s : String) : String → Option String :=
  fun k => if k = "symbol" then some s else none

/-- A params object carrying only `pattern`. -/
def paramsPattern (p : String) : String → Option String :=
  fun k => if k = "pattern" then some p else none

/-! ## Helper lemmas -/

/-- The scheduler flag and the in-flight count stay coupled across one
step. -/
lemma schedStep_inv (s : SchedState) (e : RefreshEvent)
    (h : s.running = if s.isUpdating then 1 else 0) :
    (schedStep s e).running = if (schedStep s e).isUpdating then 1 else 0 := by
  cases e with
  | tick =>
    by_cases hu : s.isUpdating <;> simp [schedStep, hu] <;> simp [hu] at h <;> omega
  | settle ok =>
    simp [schedStep]
    split at h <;> omega

/-- The coupling holds along any event sequence from a coupled state. -/
lemma schedFold_inv :
    ∀ (evs : List RefreshEvent) (s : SchedState),
      s.running = (if s.isUpdating then 1 else 0) →
      (evs.foldl schedStep s).running = if (evs.foldl schedStep s).isUpdating then 1 else 0
  | [], _, h => h
  | e :: evs, s, h => by
    simpa using schedFold_inv evs (schedStep s e) (schedStep_inv s e h)

/-- The stdio scheduler's flag/count coupling from the initial state. -/
lemma schedRun_inv (evs : List RefreshEvent) :
    (schedRun evs).running = if (schedRun evs).isUpdating then 1 else 0 :=
  schedFold_inv evs schedInit rfl

/-- `map` then `filter(Boolean)` is `filterMap`. -/
lemma map_reduceOption_eq_filterMap {α β : Type} (f : α → Option β) (l : List α) :
    (l.map f).reduceOption = l.filterMap f := by
  simp [List.reduceOption, List.filterMap_map]

/-- The parser is the `filterMap` of the line matcher over the trimmed,
split output. -/
lemma parse_eq_filterMap (output : String) :
    parseLocationOutput output = (splitOnNl (jsTrim output)).filterMap parseLocationLine := by
  by_cases h : output = ""
  · subst h; decide
  · simp [parseLocationOutput, h, map_reduceOption_eq_filterMap]

/-- `split('\n')` produces one piece per newline plus one. -/
lemma splitNlAux_length (cs : List Char) :
    ∀ acc, (splitNlAux cs acc).length = cs.count '\n' + 1 := by
  induction cs with
  | nil => intro acc; simp [splitNlAux]
  | cons c cs ih =>
    intro acc
    by_cases h : c = '\n'
    · subst h; simp [splitNlAux, ih, List.count_cons]
    · simp [splitNlAux, h, ih, List.count_cons]

/-- Trimming removes characters, never adds them. -/
lemma jsTrimChars_sublist (cs : List Char) : List.Sublist (jsTrimChars cs) cs := by
  unfold jsTrimChars
  have h2 : List.Sublist ((cs.dropWhile jsWs).reverse.dropWhile jsWs)
      (cs.dropWhile jsWs).reverse := List.dropWhile_sublist _
  have h3 := h2.reverse
  rw [List.reverse_reverse] at h3
  exact h3.trans (List.dropWhile_sublist _)

/-- Trimming the output cannot increase the number of lines. -/
lemma splitOnNl_trim_length_le (s : String) :
    (splitOnNl (jsTrim s)).length ≤ (splitOnNl s).length := by
  unfold splitOnNl jsTrim
  rw [splitNlAux_length _ [], splitNlAux_length _ []]
  have hdata : (String.mk (jsTrimChars s.data)).data = jsTrimChars s.data := rfl
  rw [hdata]
  have := (jsTrimChars_sublist s.data).count_le '\n'
  omega

/-- A decimal digit is not JavaScript whitespace. -/
lemma digit_not_ws {c : Char} (h : isDigitChar c = true) : jsWs c = false := by
  have h' : 48 ≤ c.toNat ∧ c.toNat ≤ 57 := by simpa [isDigitChar] using h
  simp [jsWs]
  omega

/-- `takeWhile`/`dropWhile` split an append exactly at the boundary where
the predicate flips. -/
lemma takeWhile_append_all {α : Type} {p : α → Bool} :
    ∀ (l1 l2 : List α), (∀ c ∈ l1, p c = true) → (∀ c ∈ l2.take 1, p c = false) →
      (l1 ++ l2).takeWhile p = l1 ∧ (l1 ++ l2).dropWhile p = l2
  | [], l2, _, h2 => by
    cases l2 with
    | nil => simp
    | cons b bs =>
      have hb := h2 b (by simp)
      simp [List.takeWhile_cons, List.dropWhile_cons, hb]
  | a :: as, l2, h1, h2 => by
    have ha := h1 a (by simp)
    have ih := takeWhile_append_all as l2 (fun c hc => h1 c (by simp [hc])) h2
    simp [List.takeWhile_cons, List.dropWhile_cons, ha, ih.1, ih.2]

/-- The first character surviving `dropWhile` fails the predicate. -/
lemma take_one_dropWhile {α : Type} (p : α → Bool) (l : List α) :
    ∀ c ∈ (l.dropWhile p).take 1, p c = false := by
  induction l with
  | nil => simp
  | cons a as ih =>
    by_cases h : p a = true
    · simpa [List.dropWhile_cons, h] using ih
    · simp [List.dropWhile_cons, h]

/-- `take 1` of an append starting with a non-empty list. -/
lemma take_one_append_of_ne_nil {α : Type} {l1 : List α} (l2 : List α) (h : l1 ≠ []) :
    (l1 ++ l2).take 1 = l1.take 1 := by
  cases l1 with
  | nil => exact absurd rfl h
  | cons a as => simp

/-- The four-logical-field decomposition of one output line, as §4.4
describes it: a non-whitespace symbol, a run of digits, a non-whitespace
file path and a trailing code chunk, separated by runs of whitespace, the
code chunk consuming the rest of the line (it starts with a
non-whitespace character, has no line terminator, and may contain interior
whitespace). -/
def FourFieldSplit (cs sym num file rest : List Char) : Prop :=
  ∃ ws1 ws2 ws3,
    cs = sym ++ (ws1 ++ (num ++ (ws2 ++ (file ++ (ws3 ++ rest))))) ∧
    sym ≠ [] ∧ num ≠ [] ∧ file ≠ [] ∧ ws1 ≠ [] ∧ ws2 ≠ [] ∧ ws3 ≠ [] ∧
    (∀ c ∈ sym, jsWs c = false) ∧ (∀ c ∈ ws1, jsWs c = true) ∧
    (∀ c ∈ num, isDigitChar c = true) ∧ (∀ c ∈ ws2, jsWs c = true) ∧
    (∀ c ∈ file, jsWs c = false) ∧ (∀ c ∈ ws3, jsWs c = true) ∧
    (∀ c ∈ rest.take 1, jsWs c = false) ∧ (∀ c ∈ rest, isLineTerm c = false)

/-- JavaScript whitespace is not a decimal digit. -/
lemma ws_not_digit {c : Char} (h : jsWs c = true) : isDigitChar c = false := by
  cases hd : isDigitChar c
  · rfl
  · rw [digit_not_ws hd] at h
    simp at h

/-- Forward direction: a line the matcher accepts decomposes into exactly
four logical fields, and the record is built from them with the code field
trimmed. -/
lemma matchLocLine_shape {cs : List Char} {r : LocRecord} (h : matchLocLine cs = some r) :
    ∃ sym num file rest, FourFieldSplit cs sym num file rest ∧
      r = { symbol := String.mk sym, line := decimalNat num,
            file := String.mk file, code := String.mk (jsTrimChars rest) } := by
  simp only [matchLocLine] at h
  set p1 : Char → Bool := fun c => !jsWs c with hp1
  set sym := cs.takeWhile p1 with hsym
  set r1 := cs.dropWhile p1 with hr1
  set ws1 := r1.takeWhile jsWs with hws1
  set r2 := r1.dropWhile jsWs with hr2
  set num := r2.takeWhile isDigitChar with hnum
  set r3 := r2.dropWhile isDigitChar with hr3
  set ws2 := r3.takeWhile jsWs with hws2
  set r4 := r3.dropWhile jsWs with hr4
  set file := r4.takeWhile p1 with hfile
  set r5 := r4.dropWhile p1 with hr5
  set ws3 := r5.takeWhile jsWs with hws3
  set rest := r5.dropWhile jsWs with hrest
  by_cases h1 : sym.isEmpty = true
  · rw [if_pos h1] at h; cases h
  rw [if_neg h1] at h
  by_cases h2 : ws1.isEmpty = true
  · rw [if_pos h2] at h; cases h
  rw [if_neg h2] at h
  by_cases h3 : num.isEmpty = true
  · rw [if_pos h3] at h; cases h
  rw [if_neg h3] at h
  by_cases h4 : ws2.isEmpty = true
  · rw [if_pos h4] at h; cases h
  rw [if_neg h4] at h
  by_cases h5 : file.isEmpty = true
  · rw [if_pos h5] at h; cases h
  rw [if_neg h5] at h
  by_cases h6 : ws3.isEmpty = true
  · rw [if_pos h6] at h; cases h
  rw [if_neg h6] at h
  by_cases h7 : rest.any isLineTerm = true
  · rw [if_pos h7] at h; cases h
  rw [if_neg h7] at h
  have hr := (Option.some.inj h).symm
  have e1 : sym ++ r1 = cs := by
    rw [hsym, hr1]; exact List.takeWhile_append_dropWhile p1 cs
  have e2 : ws1 ++ r2 = r1 := by
    rw [hws1, hr2]; exact List.takeWhile_append_dropWhile jsWs r1
  have e3 : num ++ r3 = r2 := by
    rw [hnum, hr3]; exact List.takeWhile_append_dropWhile isDigitChar r2
  have e4 : ws2 ++ r4 = r3 := by
    rw [hws2, hr4]; exact List.takeWhile_append_dropWhile jsWs r3
  have e5 : file ++ r5 = r4 := by
    rw [hfile, hr5]; exact List.takeWhile_append_dropWhile p1 r4
  have e6 : ws3 ++ rest = r5 := by
    rw [hws3, hrest]; exact List.takeWhile_append_dropWhile jsWs r5
  have hdecomp : cs = sym ++ (ws1 ++ (num ++ (ws2 ++ (file ++ (ws3 ++ rest))))) := by
    rw [e6, e5, e4, e3, e2, e1]
  have c1 : ∀ c ∈ sym, jsWs c = false := fun c hc => by
    have := List.mem_takeWhile_imp (hsym ▸ hc)
    simpa [hp1] using this
  have c2 : ∀ c ∈ ws1, jsWs c = true := fun c hc => List.mem_takeWhile_imp (hws1 ▸ hc)
  have c3 : ∀ c ∈ num, isDigitChar c = true := fun c hc => List.mem_takeWhile_imp (hnum ▸ hc)
  have c4 : ∀ c ∈ ws2, jsWs c = true := fun c hc => List.mem_takeWhile_imp (hws2 ▸ hc)
  have c5 : ∀ c ∈ file, jsWs c = false := fun c hc => by
    have := List.mem_takeWhile_imp (hfile ▸ hc)
    simpa [hp1] using this
  have c6 : ∀ c ∈ ws3, jsWs c = true := fun c hc => List.mem_takeWhile_imp (hws3 ▸ hc)
  have c7 : ∀ c ∈ rest.take 1, jsWs c = false := by
    rw [hrest]; exact take_one_dropWhile jsWs r5
  have c8 : ∀ c ∈ rest, isLineTerm c = false := by
    intro c hc
    by_contra hlt
    rw [Bool.not_eq_false] at hlt
    exact h7 (List.any_eq_true.2 ⟨c, hc, hlt⟩)
  exact ⟨sym, num, file, rest,
    ⟨ws1, ws2, ws3, hdecomp, by simpa using h1, by simpa using h3, by simpa using h5,
     by simpa using h2, by simpa using h4, by simpa using h6,
     c1, c2, c3, c4, c5, c6, c7, c8⟩, hr⟩

/-- Backward direction: every line of the four-field shape is accepted by
the matcher, producing the record with the trimmed code field. -/
lemma matchLocLine_of_shape {cs sym num file rest : List Char}
    (h : FourFieldSplit cs sym num file rest) :
    matchLocLine cs = some { symbol := String.mk sym, line := decimalNat num,
                             file := String.mk file, code := String.mk (jsTrimChars rest) } := by
  obtain ⟨ws1, ws2, ws3, hcs, hsym, hnum, hfile, hws1, hws2, hws3,
    csym, cws1, cnum, cws2, cfile, cws3, crest1, crestLT⟩ := h
  subst hcs
  have s1 := takeWhile_append_all (p := fun c => !jsWs c) sym
      (ws1 ++ (num ++ (ws2 ++ (file ++ (ws3 ++ rest)))))
      (fun c hc => by simp [csym c hc])
      (by
        rw [take_one_append_of_ne_nil _ hws1]
        intro c hc
        simp [cws1 c (List.mem_of_mem_take hc)])
  have s2 := takeWhile_append_all (p := jsWs) ws1 (num ++ (ws2 ++ (file ++ (ws3 ++ rest))))
      cws1
      (by
        rw [take_one_append_of_ne_nil _ hnum]
        intro c hc
        exact digit_not_ws (cnum c (List.mem_of_mem_take hc)))
  have s3 := takeWhile_append_all (p := isDigitChar) num (ws2 ++ (file ++ (ws3 ++ rest)))
      cnum
      (by
        rw [take_one_append_of_ne_nil _ hws2]
        intro c hc
        exact ws_not_digit (cws2 c (List.mem_of_mem_take hc)))
  have s4 := takeWhile_append_all (p := jsWs) ws2 (file ++ (ws3 ++ rest))
      cws2
      (by
        rw [take_one_append_of_ne_nil _ hfile]
        intro c hc
        exact cfile c (List.mem_of_mem_take hc))
  have s5 := takeWhile_append_all (p := fun c => !jsWs c) file (ws3 ++ rest)
      (fun c hc => by simp [cfile c hc])
      (by
        rw [take_one_append_of_ne_nil _ hws3]
        intro c hc
        simp [cws3 c (List.mem_of_mem_take hc)])
  have s6 := takeWhile_append_all (p := jsWs) ws3 rest cws3 crest1
  have g1 : sym.isEmpty = false := by
    cases sym with
    | nil => exact absurd rfl hsym
    | cons a as => rfl
  have g2 : ws1.isEmpty = false := by
    cases ws1 with
    | nil => exact absurd rfl hws1
    | cons a as => rfl
  have g3 : num.isEmpty = false := by
    cases num with
    | nil => exact absurd rfl hnum
    | cons a as => rfl
  have g4 : ws2.isEmpty = false := by
    cases ws2 with
    | nil => exact absurd rfl hws2
    | cons a as => rfl
  have g5 : file.isEmpty = false := by
    cases file with
    | nil => exact absurd rfl hfile
    | cons a as => rfl
  have g6 : ws3.isEmpty = false := by
    cases ws3 with
    | nil => exact absurd rfl hws3
    | cons a as => rfl
  have g7 : rest.any isLineTerm = false := by
    rw [List.any_eq_false]
    intro c hc
    simp [crestLT c hc]
  simp only [matchLocLine, s1.1, s1.2, s2.1, s2.2, s3.1, s3.2, s4.1, s4.2,
    s5.1, s5.2, s6.1, s6.2, g1, g2, g3, g4, g5, g6, g7]
  simp

/-! ## Claim theorems -/

/-- Claim C1 (confirmed): when every tool invocation exits non-zero purely
because it found zero results — empty stdout and the `not found` marker on
stderr — the Adapter resolves the invocation as a success with empty
output, and for each command that reaches the Adapter the session emits a
success response whose payload is the empty list, not an error response. -/
theorem C1_zero_results_success (tool : String → ExecResult) (stk : String → String)
    (i cmd : String) (params : String → Option String)
    (hres : ∀ c, (tool c).error = true ∧ includesStr (tool c).stderr "not found" = true ∧
      (tool c).stdout = "")
    (hi : i ≠ "")
    (hcmd : cmd = "get_definition" ∨ cmd = "get_references" ∨ cmd = "list_symbols_with_prefix") :
    (∀ args, executeGlobalCommand tool args = .ok "") ∧
    ∃ p, handleLine tool stk (.parsed { id := some i, command := some cmd, params := params }) =
        [{ id := some i, status := "success", payload := some p, error := none }] ∧
      p.isEmptyList := by
  have hexec : ∀ args, executeGlobalCommand tool args = .ok "" := by
    intro args
    obtain ⟨he, hnf, hout⟩ := hres ("global " ++ String.intercalate " " args)
    simp [executeGlobalCommand, he, hnf, hout]
  refine ⟨hexec, ?_⟩
  have hid : truthyOpt (some i) = true := by simp [truthyOpt, hi]
  have hparse : parseLocationOutput "" = [] := by simp [parseLocationOutput]
  have hsyms : listSymbolLines "" = [] := by decide
  rcases hcmd with h | h | h <;> subst h
  · exact ⟨.locs [], by
      simp [handleLine, hid, hi, truthyOpt, processRequest, hexec, Except.map, hparse], rfl⟩
  · exact ⟨.locs [], by
      simp [handleLine, hid, hi, truthyOpt, processRequest, hexec, Except.map, hparse], rfl⟩
  · exact ⟨.syms [], by
      simp [handleLine, hid, hi, truthyOpt, processRequest, hexec, Except.map, hsyms], rfl⟩

/-- Claim C1 witness: a concrete zero-result run for `get_definition`. -/
theorem C1_witness :
    (∀ c, (toolNotFound c).error = true ∧
      includesStr (toolNotFound c).stderr "not found" = true ∧ (toolNotFound c).stdout = "") ∧
    ∃ p, handleLine toolNotFound stk0
        (.parsed { id := some "2", command := some "get_definition", params := paramsSymbol "Foo" }) =
        [{ id := some "2", status := "success", payload := some p, error := none }] ∧
      p.isEmptyList :=
  ⟨fun _ => ⟨rfl, rfl, rfl⟩,
   (C1_zero_results_success toolNotFound stk0 "2" "get_definition" (paramsSymbol "Foo")
      (fun _ => ⟨rfl, rfl, rfl⟩) (by decide) (Or.inl rfl)).2⟩

/-- Claim C2 counterexample: in the TCP variant the Refresh Scheduler is
`setInterval(runGtagsUpdate, ...)` with no in-progress flag, so a tick that
fires while a refresh is still running starts a second one: after two ticks
with no settle in between, two refresh operations run concurrently. -/
theorem C2_counterexample :
    tcpSchedRun [RefreshEvent.tick, RefreshEvent.tick] = 2 ∧
    ¬ tcpSchedRun [RefreshEvent.tick, RefreshEvent.tick] ≤ 1 := by
  decide

/-- Claim C2 (amended): the stdio variant's scheduler
(`startPeriodicUpdate`) never has two refresh operations running
concurrently — a tick that fires during a refresh is a no-op (dropped, not
queued), the flag is set immediately before the refresh starts and cleared
on the `finally` path whether it succeeded or failed; the TCP variant's
scheduler has no such flag and a tick during a running refresh starts a
second concurrent one. -/
theorem C2_amended :
    (∀ evs, (schedRun evs).running ≤ 1) ∧
    (∀ evs, (schedRun evs).isUpdating = true ↔ (schedRun evs).running = 1) ∧
    (∀ s : SchedState, s.isUpdating = true → schedStep s RefreshEvent.tick = s) ∧
    (∀ s : SchedState, s.isUpdating = false →
      schedStep s RefreshEvent.tick = { isUpdating := true, running := s.running + 1 }) ∧
    (∀ (s : SchedState) (ok : Bool),
      schedStep s (RefreshEvent.settle ok) = { isUpdating := false, running := s.running - 1 }) ∧
    1 < tcpSchedRun [RefreshEvent.tick, RefreshEvent.tick] := by
  refine ⟨?_, ?_, ?_, ?_, ?_, by decide⟩
  · intro evs
    have h := schedRun_inv evs
    split at h <;> omega
  · intro evs
    have h := schedRun_inv evs
    constructor
    · intro hu; rw [hu] at h; simpa using h
    · intro hr
      by_contra hu
      rw [Bool.not_eq_true] at hu
      rw [hu] at h; simp at h; omega
  · intro s hu; simp [schedStep, hu]
  · intro s hu; simp [schedStep, hu]
  · intro s ok; simp [schedStep]

/-- Claim C2 witness: the amended theorem at a concrete trace and state. -/
theorem C2_witness :
    (schedRun [RefreshEvent.tick, RefreshEvent.settle false, RefreshEvent.tick]).running ≤ 1 ∧
    schedStep { isUpdating := true, running := 1 } RefreshEvent.tick =
      { isUpdating := true, running := 1 } :=
  ⟨C2_amended.1 _, C2_amended.2.2.1 _ rfl⟩

/-- Claim C3 counterexample: the line-protocol Command Dispatcher
(`processRequest`) has no `search_pattern` case, so a well-formed
`search_pattern` request falls through to the default branch and the
session answers an Unknown-command error response, not a success. -/
theorem C3_counterexample :
    handleLine toolOk stk0
      (.parsed { id := some "1", command := some "search_pattern",
                 params := paramsPattern "TODO" }) =
      [{ id := some "1", status := "error", payload := none,
         error := some { message := some "Unknown command: search_pattern",
                         details := some (stk0 "Unknown command: search_pattern") } }] ∧
    ("error" : String) ≠ "success" := by
  constructor
  · rfl
  · decide

/-- Claim C3 (amended): for every well-formed `search_pattern` request the
line-protocol dispatcher throws `Unknown command: search_pattern` and the
session emits an error response; only the MCP stdio variant's tool
dispatcher knows `search_pattern`, and there it invokes the tool in grep
mode (`global -g <pattern>`). -/
theorem C3_amended (tool : String → ExecResult) (stk : String → String)
    (i p : String) (params : String → Option String)
    (hi : i ≠ "") (_hp : params "pattern" = some p) :
    processRequest tool "search_pattern" params =
      .error (.thrown "Unknown command: search_pattern") ∧
    handleLine tool stk
        (.parsed { id := some i, command := some "search_pattern", params := params }) =
      [{ id := some i, status := "error", payload := none,
         error := some { message := some "Unknown command: search_pattern",
                         details := some (stk "Unknown command: search_pattern") } }] ∧
    classToolArgs "search_pattern" p = some ["-g", p] := by
  refine ⟨rfl, ?_, rfl⟩
  simp [handleLine, truthyOpt, hi, processRequest, errObjOf]

/-- Claim C3 witness: the amended theorem at a concrete request. -/
theorem C3_witness :
    processRequest toolOk "search_pattern" (paramsPattern "TODO") =
      .error (.thrown "Unknown command: search_pattern") ∧
    classToolArgs "search_pattern" "TODO" = some ["-g", "TODO"] :=
  ⟨(C3_amended toolOk stk0 "9" "TODO" (paramsPattern "TODO") (by decide) rfl).1,
   (C3_amended toolOk stk0 "9" "TODO" (paramsPattern "TODO") (by decide) rfl).2.2⟩

/-- Claim C4 counterexample: a line that decodes with a usable id `"7"` but
no `command` field is answered with `id: null` — the handler's catch always
writes `id: null` and never echoes a decodable id. -/
theorem C4_counterexample :
    handleLine toolOk stk0 (.parsed { id := some "7", command := none, params := noParams }) =
      [{ id := none, status := "error", payload := none,
         error := some { message := some "Invalid JSON request.",
                         details := some "Request must include 'id' and 'command' fields." } }] ∧
    (none : Option String) ≠ some "7" := by
  constructor
  · rfl
  · decide

/-- Claim C4 (amended): for every input line that fails to decode or lacks
a required field (`id` or `command`), the session emits exactly one error
response whose `id` is always `null` (even when the request's id was
decodable), and the session keeps answering every other line of the
input. -/
theorem C4_amended (tool : String → ExecResult) (stk : String → String)
    (input : LineInput) (h : malformedLine input = true) :
    (∃ emsg, handleLine tool stk input =
      [{ id := none, status := "error", payload := none,
         error := some { message := some "Invalid JSON request.", details := some emsg } }]) ∧
    (∀ xs ys, session tool stk (xs ++ input :: ys) =
      session tool stk xs ++ handleLine tool stk input ++ session tool stk ys) := by
  constructor
  · cases input with
    | parseFail emsg => exact ⟨emsg, rfl⟩
    | parsed req =>
      refine ⟨"Request must include 'id' and 'command' fields.", ?_⟩
      simp only [malformedLine, Bool.not_eq_true'] at h
      simp [handleLine, h]
  · intro xs ys
    simp [session]

/-- Claim C4 witness: the amended theorem at the concrete
decodable-id-no-command request. -/
theorem C4_witness :
    ∃ emsg, handleLine toolOk stk0
        (.parsed { id := some "7", command := none, params := noParams }) =
      [{ id := none, status := "error", payload := none,
         error := some { message := some "Invalid JSON request.", details := some emsg } }] :=
  (C4_amended toolOk stk0 (.parsed { id := some "7", command := none, params := noParams })
    (by decide)).1

/-- Claim C5 counterexample: the response to
`{"id":"3","command":"bogus","params":{}}` is not exactly
`{"id":"3","status":"error","error":{"message":"Unknown command: bogus"}}`:
the handler also attaches `details: error.stack`, so the error object
carries a `details` field. -/
theorem C5_counterexample :
    handleLine toolOk stk0
        (.parsed { id := some "3", command := some "bogus", params := noParams }) =
      [{ id := some "3", status := "error", payload := none,
         error := some { message := some "Unknown command: bogus",
                         details := some (stk0 "Unknown command: bogus") } }] ∧
    handleLine toolOk stk0
        (.parsed { id := some "3", command := some "bogus", params := noParams }) ≠
      [{ id := some "3", status := "error", payload := none,
         error := some { message := some "Unknown command: bogus", details := none } }] := by
  constructor
  · rfl
  · decide

/-- Claim C5 (amended): for every well-formed request whose command the
dispatcher does not know, the response is a single error response whose
`id` equals the request's id, whose error message is
`Unknown command: <command>` — which includes the offending name — and
which additionally carries a `details` field holding the runtime stack
text. -/
theorem C5_amended (tool : String → ExecResult) (stk : String → String)
    (i c : String) (params : String → Option String)
    (hi : i ≠ "") (hc : c ≠ "")
    (h1 : c ≠ "get_definition") (h2 : c ≠ "get_references")
    (h3 : c ≠ "list_symbols_with_prefix") :
    handleLine tool stk (.parsed { id := some i, command := some c, params := params }) =
      [{ id := some i, status := "error", payload := none,
         error := some { message := some ("Unknown command: " ++ c),
                         details := some (stk ("Unknown command: " ++ c)) } }] ∧
    includesStr ("Unknown command: " ++ c) c = true := by
  constructor
  · simp [handleLine, truthyOpt, hi, hc, processRequest, h1, h2, h3, errObjOf]
  · simp only [includesStr, decide_eq_true_eq]
    exact List.IsSuffix.isInfix (by simp only [String.data_append]; exact ⟨_, rfl⟩)

/-- Claim C5 witness: the amended theorem at the `bogus` request. -/
theorem C5_witness :
    handleLine toolOk stk0
        (.parsed { id := some "3", command := some "bogus", params := noParams }) =
      [{ id := some "3", status := "error", payload := none,
         error := some { message := some ("Unknown command: " ++ "bogus"),
                         details := some (stk0 ("Unknown command: " ++ "bogus")) } }] ∧
    includesStr ("Unknown command: " ++ "bogus") "bogus" = true :=
  C5_amended toolOk stk0 "3" "bogus" noParams (by decide) (by decide) (by decide) (by decide)
    (by decide)

/-- Claim C7 counterexample: a `tools/call` request that arrives without a
prior `initialize` is served at once — its handler trace is just the query,
with no existence check and no build, even when no index exists — and the
TCP variant's startup performs no existence check and only the
unconditional incremental `gtags -i`, never the full build. -/
theorem C7_counterexample :
    handleMessageOps false (McpMsg.toolsCall "get_definition" "Foo") =
      [IndexOp.query ["-d", "Foo"]] ∧
    IndexOp.checkAccess ∉ handleMessageOps false (McpMsg.toolsCall "get_definition" "Foo") ∧
    IndexOp.buildFull ∉ handleMessageOps false (McpMsg.toolsCall "get_definition" "Foo") ∧
    tcpStartupOps = [IndexOp.updateIncr] ∧
    IndexOp.checkAccess ∉ tcpStartupOps ∧
    IndexOp.buildFull ∉ tcpStartupOps := by
  refine ⟨rfl, ?_, ?_, rfl, ?_, ?_⟩ <;> decide

/-- Claim C7 (amended): the index bootstrap lives only in the stdio
variant's `initialize` handler: there `ensureGtagsDatabase` first checks
whether a `GTAGS` index exists in the project root and runs the full
(non-incremental) build if and only if none exists — exactly once, awaited
within that handler before its own response.  Handlers for other messages
perform no check and are not gated on the bootstrap (message handlers are
fired without being awaited, so a `tools/call` can be served before or
without the bootstrap); the TCP variant's startup performs no check and
runs only the incremental update. -/
theorem C7_amended (ex : Bool) :
    handleMessageOps ex McpMsg.init = ensureGtagsDatabase ex ∧
    ensureGtagsDatabase ex =
      IndexOp.checkAccess :: (if ex then [] else [IndexOp.buildFull]) ∧
    (IndexOp.buildFull ∈ ensureGtagsDatabase ex ↔ ex = false) ∧
    (ensureGtagsDatabase ex).count IndexOp.buildFull = (if ex then 0 else 1) ∧
    (ensureGtagsDatabase ex).head? = some IndexOp.checkAccess ∧
    (∀ name arg, IndexOp.checkAccess ∉ handleMessageOps ex (McpMsg.toolsCall name arg) ∧
      IndexOp.buildFull ∉ handleMessageOps ex (McpMsg.toolsCall name arg)) ∧
    IndexOp.checkAccess ∉ tcpStartupOps ∧
    IndexOp.buildFull ∉ tcpStartupOps := by
  refine ⟨rfl, rfl, ?_, ?_, rfl, ?_, by decide, by decide⟩
  · cases ex <;> simp [ensureGtagsDatabase]
  · cases ex <;> simp [ensureGtagsDatabase, List.count_cons]
  · intro name arg
    simp only [handleMessageOps]
    cases classToolArgs name arg <;> simp

/-- Claim C7 witness: the amended theorem with no pre-existing index, at a
concrete tool call. -/
theorem C7_witness :
    (IndexOp.buildFull ∈ ensureGtagsDatabase false ↔ false = false) ∧
    IndexOp.checkAccess ∉ handleMessageOps false (McpMsg.toolsCall "get_definition" "Foo") :=
  ⟨(C7_amended false).2.2.1, ((C7_amended false).2.2.2.2.2.1 "get_definition" "Foo").1⟩

/-- Every response the line handler writes has exactly one of
`payload`/`error`, matching its `status`. -/
lemma handleLine_response_shape (tool : String → ExecResult) (stk : String → String)
    (inp : LineInput) (r : Response) (hr : r ∈ handleLine tool stk inp) :
    (r.status = "success" ∨ r.status = "error") ∧
    (r.status = "success" ↔ r.payload.isSome = true ∧ r.error = none) ∧
    (r.status = "error" ↔ r.error.isSome = true ∧ r.payload = none) := by
  cases inp with
  | parseFail emsg =>
    simp only [handleLine, List.mem_singleton] at hr
    subst hr
    refine ⟨Or.inr rfl, ?_, ?_⟩ <;> simp
  | parsed req =>
    simp only [handleLine] at hr
    split at hr
    · split at hr <;> simp only [List.mem_singleton] at hr <;> subst hr
      · refine ⟨Or.inl rfl, ?_, ?_⟩ <;> simp
      · refine ⟨Or.inr rfl, ?_, ?_⟩ <;> simp
    · simp only [List.mem_singleton] at hr
      subst hr
      refine ⟨Or.inr rfl, ?_, ?_⟩ <;> simp

/-- Claim C8 (confirmed): every response the session emits has a `status`
of `success` or `error`, carries a `payload` exactly when the status is
`success`, and carries an `error` object exactly when the status is
`error` — never both, never neither. -/
theorem C8_exactly_one (tool : String → ExecResult) (stk : String → String)
    (inputs : List LineInput) (r : Response) (hr : r ∈ session tool stk inputs) :
    (r.status = "success" ∨ r.status = "error") ∧
    (r.status = "success" ↔ r.payload.isSome = true ∧ r.error = none) ∧
    (r.status = "error" ↔ r.error.isSome = true ∧ r.payload = none) := by
  simp only [session, List.mem_flatten, List.mem_map] at hr
  obtain ⟨l, ⟨inp, _, rfl⟩, hrl⟩ := hr
  exact handleLine_response_shape tool stk inp r hrl

/-- Claim C8 witness: the invariant at a concrete two-line session (one
unknown command, one parse failure). -/
theorem C8_witness :
    ({ id := none, status := "error", payload := none,
       error := some { message := some "Invalid JSON request.",
                       details := some "Unexpected token x" } } : Response) ∈
      session toolOk stk0 [.parsed { id := some "3", command := some "bogus", params := noParams },
        .parseFail "Unexpected token x"] ∧
    (("error" : String) = "success" ∨ ("error" : String) = "error") :=
  ⟨by decide,
   (C8_exactly_one toolOk stk0
      [.parsed { id := some "3", command := some "bogus", params := noParams },
       .parseFail "Unexpected token x"]
      { id := none, status := "error", payload := none,
        error := some { message := some "Invalid JSON request.",
                        details := some "Unexpected token x" } }
      (by decide)).1⟩

/-- Claim C9 (confirmed): against an unchanged index (the tool answers
every invocation identically) two `list_symbols_with_prefix` requests with
the same prefix get identical results; the result is a deterministic
function of the tool's raw output — its non-empty lines, an
order-preserving selection of the output lines (a sublist) in which every
non-empty line keeps its multiplicity (no deduplication). -/
theorem C9_deterministic (tool1 tool2 : String → ExecResult)
    (params1 params2 : String → Option String)
    (htool : ∀ c, tool1 c = tool2 c)
    (hp : params1 "prefix" = params2 "prefix") :
    processRequest tool1 "list_symbols_with_prefix" params1 =
      processRequest tool2 "list_symbols_with_prefix" params2 ∧
    (∀ out, (tool1 ("global " ++ String.intercalate " "
          ["-c", jsArg (params1 "prefix")])).error = false →
      out = (tool1 ("global " ++ String.intercalate " "
          ["-c", jsArg (params1 "prefix")])).stdout →
      processRequest tool1 "list_symbols_with_prefix" params1 =
        .ok (.syms (listSymbolLines out))) ∧
    (∀ out, List.Sublist (listSymbolLines out) (splitOnNl (jsTrim out))) ∧
    (∀ out s, s ≠ "" →
      (listSymbolLines out).count s = (splitOnNl (jsTrim out)).count s) := by
  refine ⟨?_, ?_, ?_, ?_⟩
  · have ht := htool ("global " ++ String.intercalate " " ["-c", jsArg (params2 "prefix")])
    simp [processRequest, executeGlobalCommand, hp, ht]
  · intro out herr hout
    subst hout
    simp [processRequest, executeGlobalCommand, herr, Except.map]
  · intro out
    exact List.filter_sublist _
  · intro out s hs
    exact List.count_filter (by simp [hs])

/-- Claim C9 witness: concrete duplicated, unsorted tool output; the
count of the repeated symbol is preserved and the whole result is computed
through the theorem's characterization. -/
theorem C9_witness :
    processRequest (fun _ => { error := false, stdout := "b\na\na\nb", stderr := "" })
        "list_symbols_with_prefix" (fun k => if k = "prefix" then some "x" else none) =
      .ok (.syms (listSymbolLines "b\na\na\nb")) ∧
    listSymbolLines "b\na\na\nb" = ["b", "a", "a", "b"] ∧
    (listSymbolLines "b\na\na\nb").count "a" = (splitOnNl (jsTrim "b\na\na\nb")).count "a" :=
  ⟨(C9_deterministic (fun _ => { error := false, stdout := "b\na\na\nb", stderr := "" })
      (fun _ => { error := false, stdout := "b\na\na\nb", stderr := "" })
      (fun k => if k = "prefix" then some "x" else none)
      (fun k => if k = "prefix" then some "x" else none)
      (fun _ => rfl) rfl).2.1 "b\na\na\nb" rfl rfl,
   by decide,
   (C9_deterministic (fun _ => { error := false, stdout := "b\na\na\nb", stderr := "" })
      (fun _ => { error := false, stdout := "b\na\na\nb", stderr := "" })
      (fun k => if k = "prefix" then some "x" else none)
      (fun k => if k = "prefix" then some "x" else none)
      (fun _ => rfl) rfl).2.2.2 "b\na\na\nb" "a" (by decide)⟩

/-- Claim C6 counterexample: the fourth field is not kept verbatim — the
parser stores `match[4].trim()`.  On the line `f 1 a.c x ` (trailing
space) the remainder after the third separator is `x `, but the record's
code field is the trimmed `x`. -/
theorem C6_counterexample :
    parseLocationOutput "f 1 a.c x \ng 2 b.c y" =
      [{ symbol := "f", line := 1, file := "a.c", code := "x" },
       { symbol := "g", line := 2, file := "b.c", code := "y" }] ∧
    ("x" : String) ≠ "x " := by
  constructor
  · rfl
  · decide

/-- Claim C6 (amended): the Output Parser maps each line to a Location
Record exactly when the line splits into four logical fields
`symbol / line-number / file-path / code`, where the fourth field is the
remainder of the line with its surrounding whitespace trimmed (it may
still contain interior whitespace); a line not of this shape yields no
record and is silently skipped without aborting the other lines
(`filterMap`); empty input parses to the empty sequence, a success, not an
error. -/
theorem C6_amended :
    parseLocationOutput "" = [] ∧
    (∀ output, parseLocationOutput output =
      (splitOnNl (jsTrim output)).filterMap parseLocationLine) ∧
    (∀ cs r, matchLocLine cs = some r →
      ∃ sym num file rest, FourFieldSplit cs sym num file rest ∧
        r = { symbol := String.mk sym, line := decimalNat num,
              file := String.mk file, code := String.mk (jsTrimChars rest) }) ∧
    (∀ cs sym num file rest, FourFieldSplit cs sym num file rest →
      matchLocLine cs = some { symbol := String.mk sym, line := decimalNat num,
                               file := String.mk file, code := String.mk (jsTrimChars rest) }) :=
  ⟨rfl, parse_eq_filterMap, fun _ _ h => matchLocLine_shape h,
   fun _ _ _ _ _ h => matchLocLine_of_shape h⟩

/-- Claim C6 witness: the shape direction of the amended theorem at the
concrete accepted line `f 1 a.c x `. -/
theorem C6_witness :
    ∃ sym num file rest, FourFieldSplit "f 1 a.c x ".data sym num file rest ∧
      ({ symbol := "f", line := 1, file := "a.c", code := "x" } : LocRecord) =
        { symbol := String.mk sym, line := decimalNat num,
          file := String.mk file, code := String.mk (jsTrimChars rest) } :=
  C6_amended.2.2.1 "f 1 a.c x ".data
    { symbol := "f", line := 1, file := "a.c", code := "x" } (by decide)

/-- Claim C10 (confirmed): the parsed records are the `filterMap` image of
the input lines — at most one record per line, in the same relative order
as the lines they came from — and the number of records never exceeds the
number of lines of the (trimmed, or raw) input text. -/
theorem C10_parser_order (output : String) :
    parseLocationOutput output = (splitOnNl (jsTrim output)).filterMap parseLocationLine ∧
    (parseLocationOutput output).length ≤ (splitOnNl (jsTrim output)).length ∧
    (parseLocationOutput output).length ≤ (splitOnNl output).length := by
  have heq := parse_eq_filterMap output
  have hle : (parseLocationOutput output).length ≤ (splitOnNl (jsTrim output)).length := by
    rw [heq]; exact List.length_filterMap_le _ _
  exact ⟨heq, hle, hle.trans (splitOnNl_trim_length_le output)⟩

end GtagsMcp
